import Mathlib

/-!
Shallow embedding of the `dataforsyningen_download` QGIS plugin:
`DownloadBlockFilesFromFTPS.processAlgorithm` (download_blocks.py) and
`Load10KmIndexFile.processAlgorithm` (load_index_file.py).

External effects (FTPS connection, remote transfers, local file creation,
archive extraction) are modelled by an oracle describing the environment's
responses, and the algorithm records its observable actions in an event
trace.
-/

namespace Dataforsyningen

/-- A map feature: its feature id and its attribute values by field name.
Attribute lookup for a missing field yields the empty string, matching the
falsy NULL value that the host returns for an absent attribute. -/
structure Feature where
  fid : Nat
  attrs : List (String × String)
deriving Repr, DecidableEq

def Feature.attr (f : Feature) (field : String) : String :=
  match f.attrs.lookup field with
  | some v => v
  | none => ""

/-- The active layer: whether it is a vector layer, its field names, and its
current feature selection (an ordered sequence). -/
structure Layer where
  isVector : Bool
  fields : List String
  selectedFeatures : List Feature
deriving Repr, DecidableEq

/-- Environment outcomes for the processing of one feature inside the loop:
whether the local file open succeeds (download_blocks.py line 206), whether
the RETR transfer succeeds (line 207), whether extraction succeeds
(lines 213-214), and the entry names contained in the downloaded archive. -/
structure FeatureOracle where
  openOk : Bool
  retrOk : Bool
  unzipOk : Bool
  entries : List String
deriving Repr, DecidableEq

def defaultFO : FeatureOracle := ⟨true, true, true, []⟩

/-- Environment outcomes for one invocation: the connect / login / prot_p
phase (lines 183-185) and the per-feature outcomes, indexed by loop
iteration. -/
structure Oracle where
  connectOk : Bool
  loginOk : Bool
  protOk : Bool
  features : List FeatureOracle
deriving Repr, DecidableEq

/-- Observable actions of one downloader invocation. -/
inductive Event where
  | connectAttempt
  | fetchAttempt (remotePath : String)
  | fileOpen (localPath : String)
  | extracted (archivePath : String)
  | skipLog (fid : Nat)
  | errorLog (filename : String)
  | downloadedLog (filename : String)
  | quitSession
deriving Repr, DecidableEq

/-- `BLOCK_TYPES` class attribute (download_blocks.py line 67). -/
def BLOCK_TYPES : List String := ["DTM", "DSM", "Pointclouds"]

/-- The `if block_type == ... / elif ... / elif ...` chain of
download_blocks.py lines 168-176: for a recognised block type it yields the
FTP directory and the filename template; the chain has no else branch, so an
unrecognised value leaves both names unassigned (`none`). -/
def templateChain (block_type : String) : Option (String × String) :=
  if block_type = "DTM" then
    some ("/dhm_danmarks_hoejdemodel/DTM/", "DTM_{grid_id}_TIF_UTM32-ETRS89.zip")
  else if block_type = "DSM" then
    some ("/dhm_danmarks_hoejdemodel/DSM/", "DSM_{grid_id}_TIF_UTM32-ETRS89.zip")
  else if block_type = "Pointclouds" then
    some ("/dhm_danmarks_hoejdemodel/PUNKTSKY/", "PUNKTSKY_{grid_id}_TIF_UTM32-ETRS89.zip")
  else none

/-- Replace every occurrence of `pat` in the third list by `repl`,
scanning left to right; the replacement is not rescanned. The fuel argument
(instantiated with the list's length) makes the recursion structural. -/
def replaceAllFuel (pat repl : List Char) : Nat → List Char → List Char
  | 0, l => l
  | _ + 1, [] => []
  | fuel + 1, c :: cs =>
    if pat ≠ [] ∧ (c :: cs).take pat.length = pat then
      repl ++ replaceAllFuel pat repl fuel ((c :: cs).drop pat.length)
    else
      c :: replaceAllFuel pat repl fuel cs

def replaceAll (pat repl l : List Char) : List Char :=
  replaceAllFuel pat repl l.length l

/-- Python `template.format(grid_id=grid_id)` for a template whose only
replacement field is `{grid_id}`: every occurrence of the placeholder is
replaced by the argument (download_blocks.py line 198). -/
def formatGridId (template grid_id : String) : String :=
  ⟨replaceAll ("\x7bgrid_id\x7d".data) grid_id.data template.data⟩

/-- Python `s.lower()` restricted to ASCII letters. -/
def lowerChar (c : Char) : Char :=
  if 'A' ≤ c ∧ c ≤ 'Z' then Char.ofNat (c.toNat + 32) else c

def strToLower (s : String) : String := ⟨s.data.map lowerChar⟩

/-- Python `s.endswith(suffix)`. -/
def strEndsWith (s suffix : String) : Bool :=
  suffix.data.isSuffixOf s.data

/-- Python `os.path.join` on a POSIX path for a relative second component
(download_blocks.py line 200). -/
def pathJoin (a b : String) : String :=
  if a.endsWith "/" then a ++ b else a ++ "/" ++ b

/-- Split a character list at every `'/'`. -/
def splitSlash : List Char → List (List Char)
  | [] => [[]]
  | c :: cs =>
    if c = '/' then [] :: splitSlash cs
    else
      match splitSlash cs with
      | [] => [[c]]
      | r :: rs => (c :: r) :: rs

/-- Join components with `'/'` separators (the inverse of `splitSlash`). -/
def joinSlash : List (List Char) → List Char
  | [] => []
  | [p] => p
  | p :: ps => p ++ '/' :: joinSlash ps

/-- CPython `zipfile.ZipFile._extract_member` member-name sanitisation as used
by `extractall` (external standard-library behaviour, not repository code):
the member name is split on the path separator and the components `""`, `"."`
and `".."` are dropped before the name is joined below the target directory. -/
def sanitizeMember (name : String) : String :=
  ⟨joinSlash ((splitSlash name.data).filter fun p =>
      p != ([] : List Char) && p != ['.'] && p != ['.', '.'])⟩

/-- A path lies inside `folder`: it is `folder` joined with a relative name
whose slash-separated components are all free of `".."`. -/
def withinFolder (folder path : String) : Prop :=
  ∃ parts : List (List Char),
    (∀ p ∈ parts, p ≠ ['.', '.'] ∧ '/' ∉ p) ∧
    path = pathJoin folder ⟨joinSlash parts⟩

/-- Loop-invariant configuration resolved before the per-feature loop of
`processAlgorithm` (download_blocks.py lines 143-190). -/
structure LoopCfg where
  attribute_field : String
  ftp_path : String
  filename_template : String
  output_folder : String
  unpack_zip : Bool
deriving Repr, DecidableEq

/-- Mutable state of the per-feature loop: the `downloaded_files` counter,
the set of local paths written so far, and the event trace. -/
structure LoopState where
  downloaded_files : Nat
  files : List String
  events : List Event
deriving Repr, DecidableEq

/-- One iteration of the per-feature loop (download_blocks.py lines 192-217).
The `try` block covers local file creation, the RETR transfer and the
optional extraction; any failure inside it appends an error report and falls
through to the next feature. -/
def processFeature (cfg : LoopCfg) (st : LoopState) (f : Feature) (o : FeatureOracle) :
    LoopState :=
  let grid_id := f.attr cfg.attribute_field
  if grid_id = "" then
    { st with events := st.events ++ [Event.skipLog f.fid] }
  else
    let filename := formatGridId cfg.filename_template grid_id
    let local_filepath := pathJoin cfg.output_folder filename
    let ftp_filepath := cfg.ftp_path ++ filename
    if o.openOk then
      let st1 : LoopState :=
        { st with
            files := st.files ++ [local_filepath]
            events := st.events ++ [Event.fileOpen local_filepath,
                                    Event.fetchAttempt ftp_filepath] }
      if o.retrOk then
        let st2 : LoopState :=
          { st1 with
              downloaded_files := st1.downloaded_files + 1
              events := st1.events ++ [Event.downloadedLog filename] }
        if cfg.unpack_zip && strEndsWith (strToLower filename) ".zip" then
          if o.unzipOk then
            { st2 with
                files := st2.files ++ o.entries.map
                  (fun e => pathJoin cfg.output_folder (sanitizeMember e))
                events := st2.events ++ [Event.extracted local_filepath] }
          else
            { st2 with events := st2.events ++ [Event.errorLog filename] }
        else st2
      else
        { st1 with events := st1.events ++ [Event.errorLog filename] }
    else
      { st with events := st.events ++ [Event.errorLog filename] }

/-- The `for feature in selected_features` loop (download_blocks.py
lines 191-217), with per-iteration environment outcomes consumed in order. -/
def downloadLoop (cfg : LoopCfg) (st : LoopState) :
    List Feature → List FeatureOracle → LoopState
  | [], _ => st
  | f :: fs, os =>
    downloadLoop cfg (processFeature cfg st f (os.headD defaultFO)) fs os.tail

/-- Parameters and host state of one invocation of
`DownloadBlockFilesFromFTPS.processAlgorithm`. `folder_is_dir` is the result
of the `os.path.isdir` probe on the resolved output folder. -/
structure Params where
  layer : Option Layer
  attribute_index : Nat
  block_type_index : Nat
  username : String
  password : String
  output_folder : String
  folder_is_dir : Bool
  unpack_zip : Bool
deriving Repr, DecidableEq

/-- `DownloadBlockFilesFromFTPS.processAlgorithm` (download_blocks.py
lines 137-222): returns either the raised exception message or the
`DOWNLOADED_FILES` result, together with the event trace. -/
def processAlgorithm (p : Params) (o : Oracle) : Except String Nat × List Event :=
  match p.layer with
  | none => (Except.error "No active vector layer found.", [])
  | some layer =>
    if layer.isVector = false then
      (Except.error "No active vector layer found.", [])
    else
      match layer.fields.get? p.attribute_index with
      | none => (Except.error "IndexError: list index out of range", [])
      | some attribute_field =>
        match BLOCK_TYPES.get? p.block_type_index with
        | none => (Except.error "IndexError: list index out of range", [])
        | some block_type =>
          if p.username = "" ∨ p.password = "" then
            (Except.error "FTP username and password are required.", [])
          else if p.folder_is_dir = false then
            (Except.error "Output folder does not exist or is not valid.", [])
          else if layer.selectedFeatures = [] then
            (Except.error "No features are selected in the active layer.", [])
          else
            match templateChain block_type with
            | none => (Except.error "NameError: name ftp_path is not defined", [])
            | some (ftp_path, filename_template) =>
              if (o.connectOk && o.loginOk && o.protOk) = false then
                (Except.error "Failed to connect to FTPS server", [Event.connectAttempt])
              else
                let cfg : LoopCfg :=
                  ⟨attribute_field, ftp_path, filename_template, p.output_folder, p.unpack_zip⟩
                let st := downloadLoop cfg ⟨0, [], [Event.connectAttempt]⟩
                  layer.selectedFeatures o.features
                (Except.ok st.downloaded_files, st.events ++ [Event.quitSession])

/-- The contribution of a single feature to the loop state: its processing
started from an empty state. -/
def featureDelta (cfg : LoopCfg) (f : Feature) (o : FeatureOracle) : LoopState :=
  processFeature cfg ⟨0, [], []⟩ f o

/-- The contribution of a whole selection: per-feature contributions
concatenated in selection order. -/
def loopDelta (cfg : LoopCfg) : List Feature → List FeatureOracle → LoopState
  | [], _ => ⟨0, [], []⟩
  | f :: fs, os =>
    let d := featureDelta cfg f (os.headD defaultFO)
    let rest := loopDelta cfg fs os.tail
    ⟨d.downloaded_files + rest.downloaded_files, d.files ++ rest.files, d.events ++ rest.events⟩

/-- Number of selected features whose transfer succeeds: non-empty grid id,
local file creation succeeds and the RETR transfer succeeds (the counter
increment on download_blocks.py line 208 precedes the extraction attempt). -/
def transferSuccessCount (cfg : LoopCfg) : List Feature → List FeatureOracle → Nat
  | [], _ => 0
  | f :: fs, os =>
    let o := os.headD defaultFO
    (if f.attr cfg.attribute_field != "" && o.openOk && o.retrOk then 1 else 0)
      + transferSuccessCount cfg fs os.tail

/-- The count asserted by the success-count claim, following the claim's own
words: features whose entire per-feature processing — the transfer and, when
extraction is requested and applies, the extraction — succeeded. -/
def fullSuccessCount (cfg : LoopCfg) : List Feature → List FeatureOracle → Nat
  | [], _ => 0
  | f :: fs, os =>
    let o := os.headD defaultFO
    let grid := f.attr cfg.attribute_field
    let filename := formatGridId cfg.filename_template grid
    (if grid != "" && o.openOk && o.retrOk &&
        (!(cfg.unpack_zip && strEndsWith (strToLower filename) ".zip") || o.unzipOk)
      then 1 else 0)
      + fullSuccessCount cfg fs os.tail

/-- Number of selected features with a non-empty grid-identifier value. -/
def nonEmptyGridCount (cfg : LoopCfg) (fs : List Feature) : Nat :=
  fs.countP fun f => f.attr cfg.attribute_field != ""

/-- Number of selected features with a non-empty grid identifier whose local
destination file is successfully created. -/
def openSuccessCount (cfg : LoopCfg) : List Feature → List FeatureOracle → Nat
  | [], _ => 0
  | f :: fs, os =>
    let o := os.headD defaultFO
    (if f.attr cfg.attribute_field != "" && o.openOk then 1 else 0)
      + openSuccessCount cfg fs os.tail

/-- Whether an event is a remote fetch attempt (a RETR command issued). -/
def isFetch : Event → Bool
  | Event.fetchAttempt _ => true
  | _ => false

/-- Number of remote fetch attempts recorded in a trace. -/
def fetchCount (events : List Event) : Nat :=
  events.countP isFetch

/-- The processing of a feature fails: its grid id is non-empty and the local
file creation, the transfer, or an applicable extraction fails. -/
def featureFails (cfg : LoopCfg) (f : Feature) (o : FeatureOracle) : Bool :=
  let grid := f.attr cfg.attribute_field
  let filename := formatGridId cfg.filename_template grid
  grid != "" &&
    (!o.openOk || !o.retrOk ||
      (cfg.unpack_zip && strEndsWith (strToLower filename) ".zip" && !o.unzipOk))

/-- Remote path and local filename as a function of block type and grid id
(download_blocks.py lines 198-201): `none` for an unrecognised block type. -/
def pathAndFilename (block_type grid_id : String) : Option (String × String) :=
  (templateChain block_type).map fun pt =>
    (pt.1 ++ formatGridId pt.2 grid_id, formatGridId pt.2 grid_id)

/-- Observable actions of one index-loader invocation. -/
inductive IdxEvent where
  | layerLoad (url : String)
  | addMapLayer (name : String)
deriving Repr, DecidableEq

/-- `Load10KmIndexFile.processAlgorithm` (load_index_file.py lines 54-93).
`layer_valid` is the environment's answer to `layer.isValid()` for the layer
constructed from the URL; styling does not touch the project and is omitted
from the trace. -/
def loadIndexAlgorithm (url : String) (layer_valid : Bool) :
    Except String String × List IdxEvent :=
  if url = "" then
    (Except.error "No URL provided.", [])
  else if layer_valid = false then
    (Except.error "Failed to load the GeoJSON file.", [IdxEvent.layerLoad url])
  else
    (Except.ok "GeoJSON loaded: 10km_index_grid",
      [IdxEvent.layerLoad url, IdxEvent.addMapLayer "10km_index_grid"])

/-! ## Concrete fixtures

A one-feature selection used to evaluate the algorithm at concrete inputs:
the layer has a single grid-id field `blok` and one selected feature with
grid id `605_64`; the parameters select block type `DTM`, supply non-empty
credentials, an existing output folder `/out` and request unpacking. -/

def cexLayer : Layer :=
  ⟨true, ["blok"], [⟨1, [("blok", "605_64")]⟩]⟩

def cexParams : Params :=
  ⟨some cexLayer, 0, 0, "user", "pw", "/out", true, true⟩

/-- The loop configuration that `processAlgorithm cexParams` resolves. -/
def cexCfg : LoopCfg :=
  ⟨"blok", "/dhm_danmarks_hoejdemodel/DTM/", "DTM_\x7bgrid_id\x7d_TIF_UTM32-ETRS89.zip",
   "/out", true⟩

/-- Environment where the transfer of the single feature succeeds but the
extraction of its archive fails. -/
def cexOracleUnzipFail : Oracle :=
  ⟨true, true, true, [⟨true, true, false, []⟩]⟩

/-- Environment where creating the local file for the single feature fails,
so no RETR command is ever issued for it. -/
def cexOracleOpenFail : Oracle :=
  ⟨true, true, true, [⟨false, true, true, []⟩]⟩

/-- Environment where the connection phase fails. -/
def cexOracleConnectFail : Oracle :=
  ⟨false, true, true, []⟩

/-- Environment where everything succeeds; the single downloaded archive
contains one entry. -/
def cexOracleAllOk : Oracle :=
  ⟨true, true, true, [⟨true, true, true, ["605_64/DTM_1km_6051_644.tif"]⟩]⟩

/-! ## Decomposition lemmas -/

theorem processFeature_shift (cfg : LoopCfg) (st : LoopState) (f : Feature) (o : FeatureOracle) :
    processFeature cfg st f o =
      ⟨st.downloaded_files + (featureDelta cfg f o).downloaded_files,
       st.files ++ (featureDelta cfg f o).files,
       st.events ++ (featureDelta cfg f o).events⟩ := by
  by_cases h1 : f.attr cfg.attribute_field = "" <;>
  by_cases h2 : o.openOk = true <;>
  by_cases h3 : o.retrOk = true <;>
  by_cases h4 : cfg.unpack_zip = true ∧
      strEndsWith (strToLower (formatGridId cfg.filename_template (f.attr cfg.attribute_field)))
        ".zip" = true <;>
  by_cases h5 : o.unzipOk = true <;>
  simp [processFeature, featureDelta, h1, h2, h3, h4, h5]

theorem downloadLoop_shift (cfg : LoopCfg) (fs : List Feature) (os : List FeatureOracle)
    (st : LoopState) :
    downloadLoop cfg st fs os =
      ⟨st.downloaded_files + (loopDelta cfg fs os).downloaded_files,
       st.files ++ (loopDelta cfg fs os).files,
       st.events ++ (loopDelta cfg fs os).events⟩ := by
  induction fs generalizing st os with
  | nil => simp [downloadLoop, loopDelta]
  | cons f fs ih =>
    rw [downloadLoop, ih, processFeature_shift, loopDelta]
    simp [Nat.add_assoc, List.append_assoc]

theorem featureDelta_count (cfg : LoopCfg) (f : Feature) (o : FeatureOracle) :
    (featureDelta cfg f o).downloaded_files =
      if f.attr cfg.attribute_field != "" && o.openOk && o.retrOk then 1 else 0 := by
  by_cases h1 : f.attr cfg.attribute_field = "" <;>
  by_cases h2 : o.openOk = true <;>
  by_cases h3 : o.retrOk = true <;>
  by_cases h4 : cfg.unpack_zip = true ∧
      strEndsWith (strToLower (formatGridId cfg.filename_template (f.attr cfg.attribute_field)))
        ".zip" = true <;>
  by_cases h5 : o.unzipOk = true <;>
  simp [featureDelta, processFeature, h1, h2, h3, h4, h5]

theorem loopDelta_count (cfg : LoopCfg) (fs : List Feature) (os : List FeatureOracle) :
    (loopDelta cfg fs os).downloaded_files = transferSuccessCount cfg fs os := by
  induction fs generalizing os with
  | nil => simp [loopDelta, transferSuccessCount]
  | cons f fs ih => rw [loopDelta, transferSuccessCount]; simp [ih, featureDelta_count]

theorem featureDelta_fetchCount (cfg : LoopCfg) (f : Feature) (o : FeatureOracle) :
    List.countP isFetch (featureDelta cfg f o).events =
      if f.attr cfg.attribute_field != "" && o.openOk then 1 else 0 := by
  by_cases h1 : f.attr cfg.attribute_field = "" <;>
  by_cases h2 : o.openOk = true <;>
  by_cases h3 : o.retrOk = true <;>
  by_cases h4 : cfg.unpack_zip = true ∧
      strEndsWith (strToLower (formatGridId cfg.filename_template (f.attr cfg.attribute_field)))
        ".zip" = true <;>
  by_cases h5 : o.unzipOk = true <;>
  simp [featureDelta, processFeature, fetchCount, isFetch, h1, h2, h3, h4, h5]

theorem loopDelta_fetchCount (cfg : LoopCfg) (fs : List Feature) (os : List FeatureOracle) :
    fetchCount (loopDelta cfg fs os).events = openSuccessCount cfg fs os := by
  induction fs generalizing os with
  | nil => simp [loopDelta, openSuccessCount, fetchCount]
  | cons f fs ih =>
    rw [loopDelta, openSuccessCount]
    simp only [fetchCount, List.countP_append] at ih ⊢
    simp [ih, featureDelta_fetchCount]

theorem openSuccess_le_nonEmpty (cfg : LoopCfg) (fs : List Feature) (os : List FeatureOracle) :
    openSuccessCount cfg fs os ≤ nonEmptyGridCount cfg fs := by
  induction fs generalizing os with
  | nil => simp [openSuccessCount, nonEmptyGridCount]
  | cons f fs ih =>
    rw [openSuccessCount]
    have h := ih os.tail
    simp only [nonEmptyGridCount, List.countP_cons] at h ⊢
    by_cases hg : (f.attr cfg.attribute_field != "") = true
    · simp only [hg, Bool.true_and, decide_eq_true_eq, if_true]
      split <;> omega
    · rw [Bool.not_eq_true] at hg
      simp only [hg, Bool.false_and, if_false]
      omega

/-! ## Path-shape lemmas -/

theorem splitSlash_ne_nil (l : List Char) : splitSlash l ≠ [] := by
  cases l with
  | nil => simp [splitSlash]
  | cons c cs =>
    rw [splitSlash]
    split
    · simp
    · split <;> simp

theorem mem_splitSlash_no_slash (l : List Char) : ∀ p ∈ splitSlash l, '/' ∉ p := by
  induction l with
  | nil => intro p hp; simp [splitSlash] at hp; simp [hp]
  | cons c cs ih =>
    intro p hp
    rw [splitSlash] at hp
    by_cases hc : c = '/'
    · rw [if_pos hc] at hp
      rcases List.mem_cons.mp hp with hp | hp
      · simp [hp]
      · exact ih p hp
    · rw [if_neg hc] at hp
      rcases hs : splitSlash cs with _ | ⟨r, rs⟩
      · exact absurd hs (splitSlash_ne_nil cs)
      · rw [hs] at hp
        rcases List.mem_cons.mp hp with hp | hp
        · subst hp
          intro hm
          rcases List.mem_cons.mp hm with hm | hm
          · exact hc hm.symm
          · exact ih r (hs ▸ List.mem_cons_self r rs) hm
        · exact ih p (hs ▸ List.mem_cons_of_mem r hp)

theorem joinSlash_splitSlash (l : List Char) : joinSlash (splitSlash l) = l := by
  induction l with
  | nil => rfl
  | cons c cs ih =>
    rw [splitSlash]
    by_cases hc : c = '/'
    · rw [if_pos hc]
      rcases hs : splitSlash cs with _ | ⟨r, rs⟩
      · exact absurd hs (splitSlash_ne_nil cs)
      · rw [hs] at ih
        subst hc
        simp [joinSlash, ih]
    · rw [if_neg hc]
      rcases hs : splitSlash cs with _ | ⟨r, rs⟩
      · exact absurd hs (splitSlash_ne_nil cs)
      · rw [hs] at ih
        cases rs with
        | nil => simpa [joinSlash] using congrArg (c :: ·) ih
        | cons r2 rs2 => simpa [joinSlash] using congrArg (c :: ·) ih

/-- Any sanitised member name joined below a folder lies within that folder. -/
theorem sanitize_withinFolder (folder e : String) :
    withinFolder folder (pathJoin folder (sanitizeMember e)) := by
  refine ⟨(splitSlash e.data).filter
      (fun p => p != ([] : List Char) && p != ['.'] && p != ['.', '.']), ?_, rfl⟩
  intro p hp
  have hmem := List.mem_of_mem_filter hp
  have hpred := List.of_mem_filter hp
  refine ⟨?_, mem_splitSlash_no_slash e.data p hmem⟩
  intro hdd
  subst hdd
  simp at hpred

/-- A relative name whose components are free of `".."` lies within the
folder it is joined to. -/
theorem join_withinFolder (folder : String) (name : String)
    (h : ∀ part ∈ splitSlash name.data, part ≠ ['.', '.']) :
    withinFolder folder (pathJoin folder name) := by
  refine ⟨splitSlash name.data, ?_, ?_⟩
  · intro p hp
    exact ⟨h p hp, mem_splitSlash_no_slash name.data p hp⟩
  · rw [joinSlash_splitSlash]

/-- The full run of `processAlgorithm` when every precondition holds and the
connection phase succeeds. -/
theorem processAlgorithm_run (p : Params) (o : Oracle) (l : Layer)
    (fld bt fp tm : String)
    (hl : p.layer = some l) (hv : l.isVector = true)
    (hf : l.fields.get? p.attribute_index = some fld)
    (hb : BLOCK_TYPES.get? p.block_type_index = some bt)
    (hu : p.username ≠ "") (hp : p.password ≠ "")
    (hd : p.folder_is_dir = true) (hs : l.selectedFeatures ≠ [])
    (ht : templateChain bt = some (fp, tm))
    (hc : o.connectOk = true) (hlg : o.loginOk = true) (hpr : o.protOk = true) :
    processAlgorithm p o =
      (Except.ok (loopDelta ⟨fld, fp, tm, p.output_folder, p.unpack_zip⟩
          l.selectedFeatures o.features).downloaded_files,
       Event.connectAttempt ::
         (loopDelta ⟨fld, fp, tm, p.output_folder, p.unpack_zip⟩
            l.selectedFeatures o.features).events ++ [Event.quitSession]) := by
  rw [processAlgorithm, hl]
  simp only [hv, hf, hb, ht, hc, hlg, hpr, hu, hp, hd, hs]
  simp [hu, hp, hd, hs, downloadLoop_shift]

/-! ## Claim theorems -/

/-- C3: the remote path and local filename are a pure deterministic function
of (category, grid identifier) — `pathAndFilename` is a function of exactly
those two inputs — and follow the fixed template table for all three
categories; in particular category `DTM` with id `605_64` yields remote path
`/dhm_danmarks_hoejdemodel/DTM/DTM_605_64_TIF_UTM32-ETRS89.zip` and local
filename `DTM_605_64_TIF_UTM32-ETRS89.zip`. -/
theorem path_filename_template_table :
    (∀ gid : String, pathAndFilename "DTM" gid =
        some ("/dhm_danmarks_hoejdemodel/DTM/" ++ ("DTM_" ++ gid ++ "_TIF_UTM32-ETRS89.zip"),
              "DTM_" ++ gid ++ "_TIF_UTM32-ETRS89.zip"))
    ∧ (∀ gid : String, pathAndFilename "DSM" gid =
        some ("/dhm_danmarks_hoejdemodel/DSM/" ++ ("DSM_" ++ gid ++ "_TIF_UTM32-ETRS89.zip"),
              "DSM_" ++ gid ++ "_TIF_UTM32-ETRS89.zip"))
    ∧ (∀ gid : String, pathAndFilename "Pointclouds" gid =
        some ("/dhm_danmarks_hoejdemodel/PUNKTSKY/"
                ++ ("PUNKTSKY_" ++ gid ++ "_TIF_UTM32-ETRS89.zip"),
              "PUNKTSKY_" ++ gid ++ "_TIF_UTM32-ETRS89.zip"))
    ∧ pathAndFilename "DTM" "605_64" =
        some ("/dhm_danmarks_hoejdemodel/DTM/DTM_605_64_TIF_UTM32-ETRS89.zip",
              "DTM_605_64_TIF_UTM32-ETRS89.zip") := by
  refine ⟨?_, ?_, ?_, by decide⟩ <;>
    intro gid <;>
    simp [pathAndFilename, templateChain, formatGridId, replaceAll, replaceAllFuel,
      String.ext_iff]

/-- C9: the category-to-template conditional chain is total over the exposed
category set: every entry of `BLOCK_TYPES` is assigned both a remote
directory and a filename template by the chain, so the path construction
never reads an undefined template. -/
theorem templateChain_total (bt : String) (h : bt ∈ BLOCK_TYPES) :
    ∃ fp tm, templateChain bt = some (fp, tm) := by
  fin_cases h
  · exact ⟨_, _, rfl⟩
  · exact ⟨_, _, rfl⟩
  · exact ⟨_, _, rfl⟩

theorem templateChain_total_witness :
    "DTM" ∈ BLOCK_TYPES ∧ ∃ fp tm, templateChain "DTM" = some (fp, tm) :=
  ⟨by decide, templateChain_total "DTM" (by decide)⟩

/-- C7: if the URL is empty or the resource does not load as a valid vector
layer, the index loader aborts with a descriptive error and no layer is
added to the project; the add-layer action occurs only for a valid layer. -/
theorem index_loader_failure_adds_no_layer (url : String) (valid : Bool)
    (h : url = "" ∨ valid = false) :
    (∃ msg, (loadIndexAlgorithm url valid).1 = Except.error msg)
    ∧ ∀ name, IdxEvent.addMapLayer name ∉ (loadIndexAlgorithm url valid).2 := by
  rcases h with h | h
  · subst h
    simp [loadIndexAlgorithm]
  · subst h
    by_cases hu : url = "" <;> simp [loadIndexAlgorithm, hu]

theorem index_loader_failure_witness :
    (("" : String) = "" ∨ true = false)
    ∧ ((∃ msg, (loadIndexAlgorithm "" true).1 = Except.error msg)
        ∧ ∀ name, IdxEvent.addMapLayer name ∉ (loadIndexAlgorithm "" true).2) :=
  ⟨Or.inl rfl, index_loader_failure_adds_no_layer "" true (Or.inl rfl)⟩

/-- Every invocation either aborts with an error before any observable
action, or all preconditions of the download phase hold. -/
theorem processAlgorithm_cases (p : Params) (o : Oracle) :
    (∃ msg, processAlgorithm p o = (Except.error msg, []))
    ∨ (∃ l fld bt fp tm, p.layer = some l ∧ l.isVector = true
        ∧ l.fields.get? p.attribute_index = some fld
        ∧ BLOCK_TYPES.get? p.block_type_index = some bt
        ∧ p.username ≠ "" ∧ p.password ≠ "" ∧ p.folder_is_dir = true
        ∧ l.selectedFeatures ≠ [] ∧ templateChain bt = some (fp, tm)) := by
  cases hL : p.layer with
  | none => exact Or.inl ⟨_, by rw [processAlgorithm, hL]⟩
  | some l =>
    by_cases hv : l.isVector = true
    case neg =>
      refine Or.inl ⟨"No active vector layer found.", ?_⟩
      have hvf : l.isVector = false := by simpa using hv
      rw [processAlgorithm, hL]
      simp [hvf]
    case pos =>
    have hv' : (l.isVector = false) = False := by simp [hv]
    cases hF : l.fields.get? p.attribute_index with
    | none =>
      exact Or.inl ⟨"IndexError: list index out of range", by
        rw [processAlgorithm, hL]; simp only [hv', if_false, hF]⟩
    | some fld =>
    cases hB : BLOCK_TYPES.get? p.block_type_index with
    | none =>
      exact Or.inl ⟨"IndexError: list index out of range", by
        rw [processAlgorithm, hL]; simp only [hv', if_false, hF, hB]⟩
    | some bt =>
    by_cases hup : p.username = "" ∨ p.password = ""
    case pos =>
      refine Or.inl ⟨"FTP username and password are required.", ?_⟩
      rw [processAlgorithm, hL]
      simp only [hv', if_false, hF, hB, if_pos hup]
    case neg =>
    push_neg at hup
    by_cases hd : p.folder_is_dir = true
    case neg =>
      refine Or.inl ⟨"Output folder does not exist or is not valid.", ?_⟩
      rw [processAlgorithm, hL]
      simp only [hv', if_false, hF, hB, if_neg (not_or.mpr hup),
        if_pos (Bool.not_eq_true _ ▸ hd)]
    case pos =>
    by_cases hs : l.selectedFeatures = []
    case pos =>
      refine Or.inl ⟨"No features are selected in the active layer.", ?_⟩
      rw [processAlgorithm, hL]
      have hd' : (p.folder_is_dir = false) = False := by simp [hd]
      simp only [hv', if_false, hF, hB, if_neg (not_or.mpr hup), hd', if_pos hs]
    case neg =>
    cases hT : templateChain bt with
    | none =>
      refine Or.inl ⟨"NameError: name ftp_path is not defined", ?_⟩
      rw [processAlgorithm, hL]
      have hd' : (p.folder_is_dir = false) = False := by simp [hd]
      simp only [hv', if_false, hF, hB, if_neg (not_or.mpr hup), hd', if_neg hs, hT]
    | some pt =>
      exact Or.inr ⟨l, fld, bt, pt.1, pt.2, rfl, hv, hF, rfl, hup.1, hup.2, hd, hs, hT⟩

/-- A precondition violation of the block downloader: no active vector
layer, empty username or password, non-existent destination folder, or an
empty feature selection. -/
def precondViolated (p : Params) : Prop :=
  p.layer = none
  ∨ (∃ l, p.layer = some l ∧ l.isVector = false)
  ∨ p.username = ""
  ∨ p.password = ""
  ∨ p.folder_is_dir = false
  ∨ (∃ l, p.layer = some l ∧ l.selectedFeatures = [])

/-- C4: when a precondition fails (no active vector layer, empty username or
password, non-existent destination folder, or no selected features) the
operation aborts with a descriptive error and its trace is empty: no
connection is opened and no transfer is attempted. -/
theorem precondition_failure_aborts_before_network (p : Params) (o : Oracle)
    (h : precondViolated p) :
    (∃ msg, (processAlgorithm p o).1 = Except.error msg)
    ∧ (processAlgorithm p o).2 = [] := by
  rcases processAlgorithm_cases p o with ⟨msg, heq⟩ | ⟨l, fld, bt, fp, tm, hl, hv, _, _,
      hu, hpw, hd, hs, _⟩
  · exact ⟨⟨msg, by rw [heq]⟩, by rw [heq]⟩
  · exfalso
    rcases h with h | ⟨l', hl', hv'⟩ | h | h | h | ⟨l', hl', hs'⟩
    · rw [h] at hl; exact Option.noConfusion hl
    · rw [hl'] at hl
      rw [Option.some.injEq] at hl
      rw [hl] at hv'
      rw [hv'] at hv
      exact Bool.noConfusion hv
    · exact hu h
    · exact hpw h
    · rw [h] at hd; exact Bool.noConfusion hd
    · rw [hl'] at hl
      rw [Option.some.injEq] at hl
      rw [hl] at hs'
      exact hs hs'

theorem precondition_failure_witness :
    precondViolated { cexParams with username := "" }
    ∧ ((∃ msg, (processAlgorithm { cexParams with username := "" } cexOracleUnzipFail).1
          = Except.error msg)
        ∧ (processAlgorithm { cexParams with username := "" } cexOracleUnzipFail).2 = []) :=
  ⟨Or.inr (Or.inr (Or.inl rfl)),
   precondition_failure_aborts_before_network _ _ (Or.inr (Or.inr (Or.inl rfl)))⟩

/-- C5: if the secured-FTP session cannot be established (connect, login or
switching to protected transfer mode fails), the whole operation aborts with
a single error after the connection attempt: the per-feature loop is never
entered, no local file is written and zero files are downloaded. -/
theorem connect_failure_aborts_whole_operation (p : Params) (o : Oracle) (l : Layer)
    (fld bt fp tm : String)
    (hl : p.layer = some l) (hv : l.isVector = true)
    (hf : l.fields.get? p.attribute_index = some fld)
    (hb : BLOCK_TYPES.get? p.block_type_index = some bt)
    (hu : p.username ≠ "") (hpw : p.password ≠ "")
    (hd : p.folder_is_dir = true) (hs : l.selectedFeatures ≠ [])
    (ht : templateChain bt = some (fp, tm))
    (hc : (o.connectOk && o.loginOk && o.protOk) = false) :
    processAlgorithm p o =
      (Except.error "Failed to connect to FTPS server", [Event.connectAttempt]) := by
  rw [processAlgorithm, hl]
  have hv' : (l.isVector = false) = False := by simp [hv]
  have hd' : (p.folder_is_dir = false) = False := by simp [hd]
  simp only [hv', if_false, hf, hb, if_neg (not_or.mpr ⟨hu, hpw⟩), hd', if_neg hs, ht,
    hc, if_true]

theorem connect_failure_witness :
    (cexOracleConnectFail.connectOk && cexOracleConnectFail.loginOk
        && cexOracleConnectFail.protOk) = false
    ∧ processAlgorithm cexParams cexOracleConnectFail =
        (Except.error "Failed to connect to FTPS server", [Event.connectAttempt]) :=
  ⟨rfl,
   connect_failure_aborts_whole_operation cexParams cexOracleConnectFail cexLayer
     "blok" "DTM" "/dhm_danmarks_hoejdemodel/DTM/" "DTM_\x7bgrid_id\x7d_TIF_UTM32-ETRS89.zip"
     rfl rfl rfl rfl (by decide) (by decide) rfl (by decide) rfl rfl⟩

/-- C8: on a terminating invocation that passes the preconditions and
connects, the result is the `ok` downloaded-file count, the session-closing
action is the last event, and the trace between connecting and closing is
exactly the concatenation, in selection order, of each feature's own events:
no reordering, deduplication or batching. -/
theorem run_returns_count_closes_session_in_order (p : Params) (o : Oracle) (l : Layer)
    (fld bt fp tm : String)
    (hl : p.layer = some l) (hv : l.isVector = true)
    (hf : l.fields.get? p.attribute_index = some fld)
    (hb : BLOCK_TYPES.get? p.block_type_index = some bt)
    (hu : p.username ≠ "") (hpw : p.password ≠ "")
    (hd : p.folder_is_dir = true) (hs : l.selectedFeatures ≠ [])
    (ht : templateChain bt = some (fp, tm))
    (hc : o.connectOk = true) (hlg : o.loginOk = true) (hpr : o.protOk = true) :
    processAlgorithm p o =
      (Except.ok (loopDelta ⟨fld, fp, tm, p.output_folder, p.unpack_zip⟩
          l.selectedFeatures o.features).downloaded_files,
       Event.connectAttempt ::
         (loopDelta ⟨fld, fp, tm, p.output_folder, p.unpack_zip⟩
            l.selectedFeatures o.features).events ++ [Event.quitSession])
    ∧ ∀ (f : Feature) (fs : List Feature) (os : List FeatureOracle),
        (loopDelta ⟨fld, fp, tm, p.output_folder, p.unpack_zip⟩ (f :: fs) os).events
          = (featureDelta ⟨fld, fp, tm, p.output_folder, p.unpack_zip⟩ f
              (os.headD defaultFO)).events
            ++ (loopDelta ⟨fld, fp, tm, p.output_folder, p.unpack_zip⟩ fs os.tail).events :=
  ⟨processAlgorithm_run p o l fld bt fp tm hl hv hf hb hu hpw hd hs ht hc hlg hpr,
   fun f fs os => by rw [loopDelta]⟩

theorem run_order_witness :
    cexParams.username ≠ "" ∧ cexLayer.selectedFeatures ≠ [] ∧
    (processAlgorithm cexParams cexOracleAllOk =
      (Except.ok (loopDelta cexCfg cexLayer.selectedFeatures
          cexOracleAllOk.features).downloaded_files,
       Event.connectAttempt :: (loopDelta cexCfg cexLayer.selectedFeatures
          cexOracleAllOk.features).events ++ [Event.quitSession])
    ∧ ∀ (f : Feature) (fs : List Feature) (os : List FeatureOracle),
        (loopDelta cexCfg (f :: fs) os).events
          = (featureDelta cexCfg f (os.headD defaultFO)).events
            ++ (loopDelta cexCfg fs os.tail).events) :=
  ⟨by decide, by decide,
   run_returns_count_closes_session_in_order cexParams cexOracleAllOk cexLayer
     "blok" "DTM" "/dhm_danmarks_hoejdemodel/DTM/" "DTM_\x7bgrid_id\x7d_TIF_UTM32-ETRS89.zip"
     rfl rfl rfl rfl (by decide) (by decide) rfl (by decide) rfl rfl rfl rfl⟩

/-- C1 counterexample: one selected feature, unpacking requested; the
transfer succeeds but the extraction fails. The returned `DOWNLOADED_FILES`
is 1, yet the number of features whose entire per-feature processing
(transfer and requested extraction) succeeded is 0: the counter is
incremented before the extraction attempt. -/
theorem downloaded_count_counterexample :
    (processAlgorithm cexParams cexOracleUnzipFail).1 = Except.ok 1
    ∧ fullSuccessCount cexCfg cexLayer.selectedFeatures cexOracleUnzipFail.features = 0 :=
  ⟨rfl, by decide⟩

/-- C1 (amended): the returned `DOWNLOADED_FILES` count equals the number of
selected features whose transfer succeeded — non-empty grid id, local file
created and RETR completed — regardless of whether a subsequent extraction
of that feature's archive succeeded. -/
theorem downloaded_count_eq_transfer_successes (p : Params) (o : Oracle) (l : Layer)
    (fld bt fp tm : String)
    (hl : p.layer = some l) (hv : l.isVector = true)
    (hf : l.fields.get? p.attribute_index = some fld)
    (hb : BLOCK_TYPES.get? p.block_type_index = some bt)
    (hu : p.username ≠ "") (hpw : p.password ≠ "")
    (hd : p.folder_is_dir = true) (hs : l.selectedFeatures ≠ [])
    (ht : templateChain bt = some (fp, tm))
    (hc : o.connectOk = true) (hlg : o.loginOk = true) (hpr : o.protOk = true) :
    (processAlgorithm p o).1 =
      Except.ok (transferSuccessCount ⟨fld, fp, tm, p.output_folder, p.unpack_zip⟩
        l.selectedFeatures o.features) := by
  rw [processAlgorithm_run p o l fld bt fp tm hl hv hf hb hu hpw hd hs ht hc hlg hpr]
  rw [loopDelta_count]

theorem downloaded_count_witness :
    (processAlgorithm cexParams cexOracleUnzipFail).1 =
      Except.ok (transferSuccessCount cexCfg cexLayer.selectedFeatures
        cexOracleUnzipFail.features) :=
  downloaded_count_eq_transfer_successes cexParams cexOracleUnzipFail cexLayer
    "blok" "DTM" "/dhm_danmarks_hoejdemodel/DTM/" "DTM_\x7bgrid_id\x7d_TIF_UTM32-ETRS89.zip"
    rfl rfl rfl rfl (by decide) (by decide) rfl (by decide) rfl rfl rfl rfl

/-- C6 counterexample: one selected feature with a non-empty grid id whose
local file creation fails. The trace contains zero remote fetch attempts
although one selected feature has a non-empty grid identifier: the RETR
command is only issued after the local file is successfully opened. -/
theorem fetch_attempts_counterexample :
    fetchCount (processAlgorithm cexParams cexOracleOpenFail).2 = 0
    ∧ nonEmptyGridCount cexCfg cexLayer.selectedFeatures = 1 := by
  constructor <;> decide

/-- C6 (amended): the number of remote fetch attempts equals the number of
selected features with a non-empty grid identifier whose local destination
file was successfully created (hence at most the number of features with a
non-empty grid identifier); a feature with an empty identifier contributes
only a skip log — no fetch attempt and no error report. -/
theorem fetch_attempts_eq_open_successes (p : Params) (o : Oracle) (l : Layer)
    (fld bt fp tm : String)
    (hl : p.layer = some l) (hv : l.isVector = true)
    (hf : l.fields.get? p.attribute_index = some fld)
    (hb : BLOCK_TYPES.get? p.block_type_index = some bt)
    (hu : p.username ≠ "") (hpw : p.password ≠ "")
    (hd : p.folder_is_dir = true) (hs : l.selectedFeatures ≠ [])
    (ht : templateChain bt = some (fp, tm))
    (hc : o.connectOk = true) (hlg : o.loginOk = true) (hpr : o.protOk = true) :
    fetchCount (processAlgorithm p o).2 =
      openSuccessCount ⟨fld, fp, tm, p.output_folder, p.unpack_zip⟩
        l.selectedFeatures o.features
    ∧ openSuccessCount ⟨fld, fp, tm, p.output_folder, p.unpack_zip⟩
        l.selectedFeatures o.features
        ≤ nonEmptyGridCount ⟨fld, fp, tm, p.output_folder, p.unpack_zip⟩ l.selectedFeatures
    ∧ ∀ (st : LoopState) (f' : Feature) (o' : FeatureOracle),
        f'.attr fld = "" →
          processFeature ⟨fld, fp, tm, p.output_folder, p.unpack_zip⟩ st f' o' =
            { st with events := st.events ++ [Event.skipLog f'.fid] } := by
  refine ⟨?_, openSuccess_le_nonEmpty _ _ _, ?_⟩
  · rw [processAlgorithm_run p o l fld bt fp tm hl hv hf hb hu hpw hd hs ht hc hlg hpr]
    rw [← loopDelta_fetchCount ⟨fld, fp, tm, p.output_folder, p.unpack_zip⟩
      l.selectedFeatures o.features]
    simp [fetchCount, isFetch, List.countP_cons, List.countP_append]
  · intro st f' o' h
    simp [processFeature, h]

theorem fetch_attempts_witness :
    fetchCount (processAlgorithm cexParams cexOracleOpenFail).2 =
      openSuccessCount cexCfg cexLayer.selectedFeatures cexOracleOpenFail.features
    ∧ openSuccessCount cexCfg cexLayer.selectedFeatures cexOracleOpenFail.features
        ≤ nonEmptyGridCount cexCfg cexLayer.selectedFeatures
    ∧ ∀ (st : LoopState) (f' : Feature) (o' : FeatureOracle),
        f'.attr "blok" = "" →
          processFeature cexCfg st f' o' =
            { st with events := st.events ++ [Event.skipLog f'.fid] } :=
  fetch_attempts_eq_open_successes cexParams cexOracleOpenFail cexLayer
    "blok" "DTM" "/dhm_danmarks_hoejdemodel/DTM/" "DTM_\x7bgrid_id\x7d_TIF_UTM32-ETRS89.zip"
    rfl rfl rfl rfl (by decide) (by decide) rfl (by decide) rfl rfl rfl rfl

/-- C2: when the processing of a feature with a non-empty grid identifier
fails — the local file cannot be created, the transfer fails, or an
applicable extraction fails — the failure is absorbed inside the per-feature
step: an error report for that feature's filename is appended to the trace,
the loop proceeds to the remaining features exactly as the per-feature step
function dictates, and the remaining features contribute their full event
sequences; a failure on one feature never aborts processing of subsequent
features. -/
theorem per_feature_failure_is_nonfatal (cfg : LoopCfg) (st : LoopState) (f : Feature)
    (o : FeatureOracle) (h : featureFails cfg f o = true) :
    Event.errorLog (formatGridId cfg.filename_template (f.attr cfg.attribute_field))
        ∈ (processFeature cfg st f o).events
    ∧ (∀ (fs : List Feature) (os : List FeatureOracle),
        downloadLoop cfg st (f :: fs) (o :: os)
          = downloadLoop cfg (processFeature cfg st f o) fs os)
    ∧ (∀ (fs : List Feature) (os : List FeatureOracle),
        (downloadLoop cfg (processFeature cfg st f o) fs os).events
          = (processFeature cfg st f o).events ++ (loopDelta cfg fs os).events) := by
  refine ⟨?_, fun fs os => rfl, fun fs os => by rw [downloadLoop_shift]⟩
  simp only [featureFails, Bool.and_eq_true, bne_iff_ne] at h
  obtain ⟨hg, hfail⟩ := h
  by_cases h2 : o.openOk = true
  · by_cases h3 : o.retrOk = true
    · by_cases h4 : cfg.unpack_zip = true
      · by_cases h5 : strEndsWith (strToLower (formatGridId cfg.filename_template
            (f.attr cfg.attribute_field))) ".zip" = true
        · by_cases h6 : o.unzipOk = true
          · exfalso; simp [h2, h3, h4, h5, h6] at hfail
          · have h6' : o.unzipOk = false := by simpa using h6
            simp [processFeature, hg, h2, h3, h4, h5, h6']
        · exfalso; simp [h2, h3, h5] at hfail
      · exfalso; simp [h2, h3, h4] at hfail
    · have h3' : o.retrOk = false := by simpa using h3
      simp [processFeature, hg, h2, h3']
  · have h2' : o.openOk = false := by simpa using h2
    simp [processFeature, hg, h2']

theorem per_feature_failure_witness :
    featureFails cexCfg ⟨1, [("blok", "605_64")]⟩ ⟨false, true, true, []⟩ = true
    ∧ (Event.errorLog (formatGridId cexCfg.filename_template
          (Feature.attr ⟨1, [("blok", "605_64")]⟩ cexCfg.attribute_field))
        ∈ (processFeature cexCfg ⟨0, [], []⟩ ⟨1, [("blok", "605_64")]⟩
            ⟨false, true, true, []⟩).events
      ∧ (∀ (fs : List Feature) (os : List FeatureOracle),
          downloadLoop cexCfg ⟨0, [], []⟩ (⟨1, [("blok", "605_64")]⟩ :: fs)
              (⟨false, true, true, []⟩ :: os)
            = downloadLoop cexCfg (processFeature cexCfg ⟨0, [], []⟩
                ⟨1, [("blok", "605_64")]⟩ ⟨false, true, true, []⟩) fs os)
      ∧ (∀ (fs : List Feature) (os : List FeatureOracle),
          (downloadLoop cexCfg (processFeature cexCfg ⟨0, [], []⟩
              ⟨1, [("blok", "605_64")]⟩ ⟨false, true, true, []⟩) fs os).events
            = (processFeature cexCfg ⟨0, [], []⟩ ⟨1, [("blok", "605_64")]⟩
                ⟨false, true, true, []⟩).events ++ (loopDelta cexCfg fs os).events)) :=
  ⟨by decide,
   per_feature_failure_is_nonfatal cexCfg ⟨0, [], []⟩ ⟨1, [("blok", "605_64")]⟩
     ⟨false, true, true, []⟩ (by decide)⟩

/-- C10: after a successful per-feature step with extraction (non-empty grid
id, local file created, transfer completed, unpacking requested for a
zip-named file, extraction succeeded), the downloaded archive is still
present among the written files alongside every extracted entry; every path
the step wrote lies within the destination folder; and everything present
after the step is still present after the loop processes any remaining
features — nothing is ever deleted. -/
theorem extraction_keeps_archive_and_stays_within_folder (cfg : LoopCfg) (st : LoopState)
    (f : Feature) (o : FeatureOracle)
    (hg : f.attr cfg.attribute_field ≠ "")
    (ho : o.openOk = true) (hr : o.retrOk = true)
    (hz : (cfg.unpack_zip && strEndsWith
        (strToLower (formatGridId cfg.filename_template (f.attr cfg.attribute_field)))
        ".zip") = true)
    (hx : o.unzipOk = true)
    (hfn : ∀ part ∈ splitSlash
        (formatGridId cfg.filename_template (f.attr cfg.attribute_field)).data,
        part ≠ ['.', '.']) :
    pathJoin cfg.output_folder (formatGridId cfg.filename_template
        (f.attr cfg.attribute_field)) ∈ (processFeature cfg st f o).files
    ∧ (∀ e ∈ o.entries,
        pathJoin cfg.output_folder (sanitizeMember e) ∈ (processFeature cfg st f o).files)
    ∧ (∀ q ∈ (processFeature cfg st f o).files,
        q ∈ st.files ∨ withinFolder cfg.output_folder q)
    ∧ (∀ (fs : List Feature) (os : List FeatureOracle) (q : String),
        q ∈ (processFeature cfg st f o).files
          → q ∈ (downloadLoop cfg (processFeature cfg st f o) fs os).files) := by
  simp only [Bool.and_eq_true] at hz
  obtain ⟨hz1, hz2⟩ := hz
  have hpf : (processFeature cfg st f o).files =
      st.files ++ (pathJoin cfg.output_folder (formatGridId cfg.filename_template
          (f.attr cfg.attribute_field)) ::
        o.entries.map (fun e => pathJoin cfg.output_folder (sanitizeMember e))) := by
    simp [processFeature, hg, ho, hr, hz1, hz2, hx]
  refine ⟨?_, ?_, ?_, ?_⟩
  · rw [hpf]; simp
  · intro e he
    rw [hpf]
    simp only [List.mem_append, List.mem_cons, List.mem_map]
    exact Or.inr (Or.inr ⟨e, he, rfl⟩)
  · intro q hq
    rw [hpf] at hq
    rcases List.mem_append.mp hq with hq | hq
    · exact Or.inl hq
    · rcases List.mem_cons.mp hq with hq | hq
      · subst hq
        exact Or.inr (join_withinFolder _ _ hfn)
      · rcases List.mem_map.mp hq with ⟨e, _, he⟩
        subst he
        exact Or.inr (sanitize_withinFolder _ _)
  · intro fs os q hq
    rw [downloadLoop_shift]
    exact List.mem_append.mpr (Or.inl hq)

theorem extraction_witness :
    (Feature.attr ⟨1, [("blok", "605_64")]⟩ cexCfg.attribute_field ≠ "")
    ∧ (pathJoin cexCfg.output_folder (formatGridId cexCfg.filename_template
          (Feature.attr ⟨1, [("blok", "605_64")]⟩ cexCfg.attribute_field))
        ∈ (processFeature cexCfg ⟨0, [], []⟩ ⟨1, [("blok", "605_64")]⟩
            ⟨true, true, true, ["605_64/DTM_1km_6051_644.tif"]⟩).files
      ∧ (∀ e ∈ (FeatureOracle.mk true true true ["605_64/DTM_1km_6051_644.tif"]).entries,
          pathJoin cexCfg.output_folder (sanitizeMember e)
            ∈ (processFeature cexCfg ⟨0, [], []⟩ ⟨1, [("blok", "605_64")]⟩
                ⟨true, true, true, ["605_64/DTM_1km_6051_644.tif"]⟩).files)
      ∧ (∀ q ∈ (processFeature cexCfg ⟨0, [], []⟩ ⟨1, [("blok", "605_64")]⟩
            ⟨true, true, true, ["605_64/DTM_1km_6051_644.tif"]⟩).files,
          q ∈ (LoopState.mk 0 [] []).files ∨ withinFolder cexCfg.output_folder q)
      ∧ (∀ (fs : List Feature) (os : List FeatureOracle) (q : String),
          q ∈ (processFeature cexCfg ⟨0, [], []⟩ ⟨1, [("blok", "605_64")]⟩
              ⟨true, true, true, ["605_64/DTM_1km_6051_644.tif"]⟩).files
            → q ∈ (downloadLoop cexCfg (processFeature cexCfg ⟨0, [], []⟩
                ⟨1, [("blok", "605_64")]⟩
                ⟨true, true, true, ["605_64/DTM_1km_6051_644.tif"]⟩) fs os).files)) :=
  ⟨by decide,
   extraction_keeps_archive_and_stays_within_folder cexCfg ⟨0, [], []⟩
     ⟨1, [("blok", "605_64")]⟩ ⟨true, true, true, ["605_64/DTM_1km_6051_644.tif"]⟩
     (by decide) rfl rfl (by decide) rfl (by decide)⟩

end Dataforsyningen
